import Mathlib

/-!
Verification of the grid-partition and defect-viewing logic of the
Anomaly_Detection_Visual_inspection repository.

The TypeScript sources are embedded shallowly:

* JavaScript numbers carrying image dimensions and pixel coordinates are
  modelled as exact rationals (`ℚ`); the arithmetic performed by the code
  (`imageWidth / gridSize`, multiplication, subtraction) is exact on such
  values, and the source applies no flooring or rounding to them.
* The `gridIndex` argument is modelled as `ℤ`; `Math.floor(gridIndex / 3)`
  is `Int.fdiv gridIndex 3` and the JavaScript remainder `gridIndex % 3`
  (sign of the dividend) is `Int.tmod gridIndex 3`.
* Asynchronous canvas cropping is modelled by an explicit function giving
  the data URL produced for a source image and a crop region; only the
  success path of the promise is modelled.
-/

/-- `CropRegion` from src/src/utils/imageCropper.ts: a rectangle in
source-image pixel coordinates. -/
structure CropRegion where
  x : ℚ
  y : ℚ
  width : ℚ
  height : ℚ
deriving Repr, DecidableEq

/-- `CroppedImage` from src/src/utils/imageCropper.ts: the resolved value of
`cropAndStoreDefect`. -/
structure CroppedImage where
  data : String
  region : CropRegion
  gridIndex : ℤ
deriving Repr, DecidableEq

namespace ImageCropper

/-- `ImageCropper.getGridSegmentRegion` from src/src/utils/imageCropper.ts,
translated verbatim: `segmentWidth = imageWidth / gridSize` is exact division
(the source has no `Math.floor`), `row = Math.floor(gridIndex / gridSize)`,
`col = gridIndex % gridSize`, and the last column/row branches subtract the
origin from the full dimension. -/
def getGridSegmentRegion (imageWidth imageHeight : ℚ) (gridIndex : ℤ) : CropRegion :=
  let gridSize : ℤ := 3
  let segmentWidth := imageWidth / 3
  let segmentHeight := imageHeight / 3
  let row := Int.fdiv gridIndex gridSize
  let col := Int.tmod gridIndex gridSize
  let x := (col : ℚ) * segmentWidth
  let y := (row : ℚ) * segmentHeight
  let width := if col = gridSize - 1 then imageWidth - x else segmentWidth
  let height := if row = gridSize - 1 then imageHeight - y else segmentHeight
  ⟨x, y, width, height⟩

/-- `ImageCropper.getAllGridSegments` from src/src/utils/imageCropper.ts:
`Array.from({length: 9}, (_, i) => getGridSegmentRegion(w, h, i))`. -/
def getAllGridSegments (imageWidth imageHeight : ℚ) : List CropRegion :=
  (List.range 9).map fun i => getGridSegmentRegion imageWidth imageHeight (i : ℤ)

/-- The success path of `ImageCropper.cropAndStoreDefect` from
src/src/utils/imageCropper.ts: the promise resolves with the data URL
produced by `cropImageRegion` (modelled by `cropOutput`, a function of the
source image URL and the crop region), the region computed by
`getGridSegmentRegion`, and the `gridIndex` argument unchanged. -/
def cropAndStoreDefect (cropOutput : String → CropRegion → String)
    (testImageUrl : String) (gridIndex : ℤ)
    (imageWidth imageHeight : ℚ) : CroppedImage :=
  let region := getGridSegmentRegion imageWidth imageHeight gridIndex
  { data := cropOutput testImageUrl region
    region := region
    gridIndex := gridIndex }

end ImageCropper

/-- The point set of a crop region: the half-open rectangle
`[x, x + width) × [y, y + height)`. -/
def CropRegion.contains (r : CropRegion) (p : ℚ × ℚ) : Prop :=
  r.x ≤ p.1 ∧ p.1 < r.x + r.width ∧ r.y ≤ p.2 ∧ p.2 < r.y + r.height

instance (r : CropRegion) (p : ℚ × ℚ) : Decidable (r.contains p) := by
  unfold CropRegion.contains; infer_instance

/-- `SegmentResult` from the repository's types module (bundled into
src/src/components/InspectionCard.tsx). -/
structure SegmentResult where
  segment_index : ℕ
  ssim_score : ℚ
  pixel_diff_score : ℚ
  anomaly_detected : Bool
  confidence : ℚ
  verdict : String
deriving Repr, DecidableEq

/-- `AnalysisResult` from the repository's types module (bundled into
src/src/components/InspectionCard.tsx). -/
structure AnalysisResult where
  segments : List SegmentResult
  anomaly_count : ℕ
  overall_defect_score : ℚ
  average_confidence : ℚ
  verdict : String
  defect_locations : List ℕ
deriving Repr, DecidableEq

/-- Modelled from the spec: the Aggregator (spec section 4.5) that produces
every `AnalysisResult` is part of the processing pipeline missing from the
frontend sources (only the `AnalysisResult` type and its UI consumers appear
under src/). Following the spec's words: `anomaly_count` is the count of
segments with `anomaly_detected`; `defect_locations` their indices, ascending
(the segments arrive in index order 0..8, so filtering preserves that order);
`overall_defect_score` the mean of the nine `pixel_diff_score`s;
`average_confidence` the mean of the nine confidences; `verdict` is DEFECT
iff `anomaly_count > 0`, else NORMAL. -/
def aggregate (segments : List SegmentResult) : AnalysisResult :=
  { segments := segments
    anomaly_count := (segments.filter fun s => s.anomaly_detected).length
    overall_defect_score := (segments.map fun s => s.pixel_diff_score).sum / 9
    average_confidence := (segments.map fun s => s.confidence).sum / 9
    verdict :=
      if 0 < (segments.filter fun s => s.anomaly_detected).length then "DEFECT"
      else "NORMAL"
    defect_locations :=
      (segments.filter fun s => s.anomaly_detected).map fun s => s.segment_index }

/-- The props of `DefectViewer` (src/src/components/DefectViewer.tsx):
`imageWidth` and `imageHeight` are optional props; the `onClose` callback is
irrelevant to the claims and omitted. -/
structure DefectViewerProps where
  testImageUrl : String
  masterImageUrl : String
  analysisResult : AnalysisResult
  imageWidth : Option ℚ
  imageHeight : Option ℚ

/-- The destructuring default `imageWidth = 800` in the `DefectViewer`
function component. -/
def DefectViewerProps.effectiveImageWidth (p : DefectViewerProps) : ℚ :=
  p.imageWidth.getD 800

/-- The destructuring default `imageHeight = 600` in the `DefectViewer`
function component. -/
def DefectViewerProps.effectiveImageHeight (p : DefectViewerProps) : ℚ :=
  p.imageHeight.getD 600

/-- `loadCroppedImages` from src/src/components/DefectViewer.tsx: crops the
test image and the master image at the selected grid segment through
`ImageCropper.cropAndStoreDefect`, passing the component's `imageWidth` and
`imageHeight`. Returns the pair `(testCrop, masterCrop)`. -/
def DefectViewer.loadCroppedImages (cropOutput : String → CropRegion → String)
    (p : DefectViewerProps) (gridIndex : ℤ) : CroppedImage × CroppedImage :=
  (ImageCropper.cropAndStoreDefect cropOutput p.testImageUrl gridIndex
     p.effectiveImageWidth p.effectiveImageHeight,
   ImageCropper.cropAndStoreDefect cropOutput p.masterImageUrl gridIndex
     p.effectiveImageWidth p.effectiveImageHeight)

/-- The `DefectViewer` instantiation in src/src/components/InspectionCard.tsx:
only `testImageUrl`, `masterImageUrl`, `analysisResult` and `onClose` are
passed; `imageWidth` and `imageHeight` are always omitted. -/
def InspectionCard.defectViewerProps (imagePath goldenImagePath : String)
    (analysisResult : AnalysisResult) : DefectViewerProps :=
  { testImageUrl := imagePath
    masterImageUrl := goldenImagePath
    analysisResult := analysisResult
    imageWidth := none
    imageHeight := none }

namespace ImageCropper

theorem getGridSegmentRegion_zero (W H : ℚ) :
    getGridSegmentRegion W H 0 = ⟨0 * (W / 3), 0 * (H / 3), W / 3, H / 3⟩ := rfl

theorem getGridSegmentRegion_one (W H : ℚ) :
    getGridSegmentRegion W H 1 = ⟨1 * (W / 3), 0 * (H / 3), W / 3, H / 3⟩ := rfl

theorem getGridSegmentRegion_two (W H : ℚ) :
    getGridSegmentRegion W H 2 =
      ⟨2 * (W / 3), 0 * (H / 3), W - 2 * (W / 3), H / 3⟩ := rfl

theorem getGridSegmentRegion_three (W H : ℚ) :
    getGridSegmentRegion W H 3 = ⟨0 * (W / 3), 1 * (H / 3), W / 3, H / 3⟩ := rfl

theorem getGridSegmentRegion_four (W H : ℚ) :
    getGridSegmentRegion W H 4 = ⟨1 * (W / 3), 1 * (H / 3), W / 3, H / 3⟩ := rfl

theorem getGridSegmentRegion_five (W H : ℚ) :
    getGridSegmentRegion W H 5 =
      ⟨2 * (W / 3), 1 * (H / 3), W - 2 * (W / 3), H / 3⟩ := rfl

theorem getGridSegmentRegion_six (W H : ℚ) :
    getGridSegmentRegion W H 6 =
      ⟨0 * (W / 3), 2 * (H / 3), W / 3, H - 2 * (H / 3)⟩ := rfl

theorem getGridSegmentRegion_seven (W H : ℚ) :
    getGridSegmentRegion W H 7 =
      ⟨1 * (W / 3), 2 * (H / 3), W / 3, H - 2 * (H / 3)⟩ := rfl

theorem getGridSegmentRegion_eight (W H : ℚ) :
    getGridSegmentRegion W H 8 =
      ⟨2 * (W / 3), 2 * (H / 3), W - 2 * (W / 3), H - 2 * (H / 3)⟩ := rfl

theorem getAllGridSegments_eq (W H : ℚ) :
    getAllGridSegments W H =
      [getGridSegmentRegion W H 0, getGridSegmentRegion W H 1,
       getGridSegmentRegion W H 2, getGridSegmentRegion W H 3,
       getGridSegmentRegion W H 4, getGridSegmentRegion W H 5,
       getGridSegmentRegion W H 6, getGridSegmentRegion W H 7,
       getGridSegmentRegion W H 8] := rfl

theorem contains_zero_iff (W H : ℚ) (p : ℚ × ℚ) :
    (getGridSegmentRegion W H 0).contains p ↔
      0 ≤ p.1 ∧ p.1 < W / 3 ∧ 0 ≤ p.2 ∧ p.2 < H / 3 := by
  simp only [getGridSegmentRegion_zero, CropRegion.contains]
  constructor <;> rintro ⟨h1, h2, h3, h4⟩ <;>
    exact ⟨by linarith, by linarith, by linarith, by linarith⟩

theorem contains_one_iff (W H : ℚ) (p : ℚ × ℚ) :
    (getGridSegmentRegion W H 1).contains p ↔
      W / 3 ≤ p.1 ∧ p.1 < 2 * (W / 3) ∧ 0 ≤ p.2 ∧ p.2 < H / 3 := by
  simp only [getGridSegmentRegion_one, CropRegion.contains]
  constructor <;> rintro ⟨h1, h2, h3, h4⟩ <;>
    exact ⟨by linarith, by linarith, by linarith, by linarith⟩

theorem contains_two_iff (W H : ℚ) (p : ℚ × ℚ) :
    (getGridSegmentRegion W H 2).contains p ↔
      2 * (W / 3) ≤ p.1 ∧ p.1 < W ∧ 0 ≤ p.2 ∧ p.2 < H / 3 := by
  simp only [getGridSegmentRegion_two, CropRegion.contains]
  constructor <;> rintro ⟨h1, h2, h3, h4⟩ <;>
    exact ⟨by linarith, by linarith, by linarith, by linarith⟩

theorem contains_three_iff (W H : ℚ) (p : ℚ × ℚ) :
    (getGridSegmentRegion W H 3).contains p ↔
      0 ≤ p.1 ∧ p.1 < W / 3 ∧ H / 3 ≤ p.2 ∧ p.2 < 2 * (H / 3) := by
  simp only [getGridSegmentRegion_three, CropRegion.contains]
  constructor <;> rintro ⟨h1, h2, h3, h4⟩ <;>
    exact ⟨by linarith, by linarith, by linarith, by linarith⟩

theorem contains_four_iff (W H : ℚ) (p : ℚ × ℚ) :
    (getGridSegmentRegion W H 4).contains p ↔
      W / 3 ≤ p.1 ∧ p.1 < 2 * (W / 3) ∧ H / 3 ≤ p.2 ∧ p.2 < 2 * (H / 3) := by
  simp only [getGridSegmentRegion_four, CropRegion.contains]
  constructor <;> rintro ⟨h1, h2, h3, h4⟩ <;>
    exact ⟨by linarith, by linarith, by linarith, by linarith⟩

theorem contains_five_iff (W H : ℚ) (p : ℚ × ℚ) :
    (getGridSegmentRegion W H 5).contains p ↔
      2 * (W / 3) ≤ p.1 ∧ p.1 < W ∧ H / 3 ≤ p.2 ∧ p.2 < 2 * (H / 3) := by
  simp only [getGridSegmentRegion_five, CropRegion.contains]
  constructor <;> rintro ⟨h1, h2, h3, h4⟩ <;>
    exact ⟨by linarith, by linarith, by linarith, by linarith⟩

theorem contains_six_iff (W H : ℚ) (p : ℚ × ℚ) :
    (getGridSegmentRegion W H 6).contains p ↔
      0 ≤ p.1 ∧ p.1 < W / 3 ∧ 2 * (H / 3) ≤ p.2 ∧ p.2 < H := by
  simp only [getGridSegmentRegion_six, CropRegion.contains]
  constructor <;> rintro ⟨h1, h2, h3, h4⟩ <;>
    exact ⟨by linarith, by linarith, by linarith, by linarith⟩

theorem contains_seven_iff (W H : ℚ) (p : ℚ × ℚ) :
    (getGridSegmentRegion W H 7).contains p ↔
      W / 3 ≤ p.1 ∧ p.1 < 2 * (W / 3) ∧ 2 * (H / 3) ≤ p.2 ∧ p.2 < H := by
  simp only [getGridSegmentRegion_seven, CropRegion.contains]
  constructor <;> rintro ⟨h1, h2, h3, h4⟩ <;>
    exact ⟨by linarith, by linarith, by linarith, by linarith⟩

theorem contains_eight_iff (W H : ℚ) (p : ℚ × ℚ) :
    (getGridSegmentRegion W H 8).contains p ↔
      2 * (W / 3) ≤ p.1 ∧ p.1 < W ∧ 2 * (H / 3) ≤ p.2 ∧ p.2 < H := by
  simp only [getGridSegmentRegion_eight, CropRegion.contains]
  constructor <;> rintro ⟨h1, h2, h3, h4⟩ <;>
    exact ⟨by linarith, by linarith, by linarith, by linarith⟩

end ImageCropper

/-- C3: for every positive imageWidth and imageHeight and every gridIndex in
[0, 8], the CropRegion returned by getGridSegmentRegion satisfies 0 ≤ x,
0 ≤ y, x + width ≤ imageWidth and y + height ≤ imageHeight. -/
theorem getGridSegmentRegion_within_bounds (W H : ℚ) (i : ℤ)
    (hW : 0 < W) (hH : 0 < H) (h0 : 0 ≤ i) (h8 : i ≤ 8) :
    0 ≤ (ImageCropper.getGridSegmentRegion W H i).x ∧
      0 ≤ (ImageCropper.getGridSegmentRegion W H i).y ∧
      (ImageCropper.getGridSegmentRegion W H i).x +
        (ImageCropper.getGridSegmentRegion W H i).width ≤ W ∧
      (ImageCropper.getGridSegmentRegion W H i).y +
        (ImageCropper.getGridSegmentRegion W H i).height ≤ H := by
  interval_cases i <;>
    simp only [ImageCropper.getGridSegmentRegion_zero,
      ImageCropper.getGridSegmentRegion_one, ImageCropper.getGridSegmentRegion_two,
      ImageCropper.getGridSegmentRegion_three, ImageCropper.getGridSegmentRegion_four,
      ImageCropper.getGridSegmentRegion_five, ImageCropper.getGridSegmentRegion_six,
      ImageCropper.getGridSegmentRegion_seven, ImageCropper.getGridSegmentRegion_eight] <;>
    exact ⟨by linarith, by linarith, by linarith, by linarith⟩

theorem getGridSegmentRegion_within_bounds_witness :
    0 ≤ (ImageCropper.getGridSegmentRegion 800 600 4).x ∧
      0 ≤ (ImageCropper.getGridSegmentRegion 800 600 4).y ∧
      (ImageCropper.getGridSegmentRegion 800 600 4).x +
        (ImageCropper.getGridSegmentRegion 800 600 4).width ≤ 800 ∧
      (ImageCropper.getGridSegmentRegion 800 600 4).y +
        (ImageCropper.getGridSegmentRegion 800 600 4).height ≤ 600 :=
  getGridSegmentRegion_within_bounds 800 600 4 (by norm_num) (by norm_num)
    (by decide) (by decide)

/-- C4: for gridIndex in [0, 8] the region is the cell at grid row
floor(gridIndex / 3) and grid column gridIndex mod 3, with
gridIndex = row * 3 + col and row, col in {0, 1, 2}; its x origin is col
times the segment width (imageWidth / 3 in the source) and its y origin is
row times the segment height (imageHeight / 3). -/
theorem getGridSegmentRegion_rowMajor (W H : ℚ) (i : ℤ) (h0 : 0 ≤ i) (h8 : i ≤ 8) :
    (Int.fdiv i 3 = 0 ∨ Int.fdiv i 3 = 1 ∨ Int.fdiv i 3 = 2) ∧
      (Int.tmod i 3 = 0 ∨ Int.tmod i 3 = 1 ∨ Int.tmod i 3 = 2) ∧
      i = Int.fdiv i 3 * 3 + Int.tmod i 3 ∧
      (ImageCropper.getGridSegmentRegion W H i).x = (Int.tmod i 3 : ℚ) * (W / 3) ∧
      (ImageCropper.getGridSegmentRegion W H i).y = (Int.fdiv i 3 : ℚ) * (H / 3) := by
  have hf : Int.fdiv i 3 = i / 3 := Int.fdiv_eq_ediv i (by norm_num)
  have ht : Int.tmod i 3 = i % 3 := Int.tmod_eq_emod h0 (by norm_num)
  exact ⟨by rw [hf]; omega, by rw [ht]; omega, by rw [hf, ht]; omega, rfl, rfl⟩

theorem getGridSegmentRegion_rowMajor_witness :
    (Int.fdiv 5 3 = 0 ∨ Int.fdiv 5 3 = 1 ∨ Int.fdiv 5 3 = 2) ∧
      (Int.tmod 5 3 = 0 ∨ Int.tmod 5 3 = 1 ∨ Int.tmod 5 3 = 2) ∧
      (5 : ℤ) = Int.fdiv 5 3 * 3 + Int.tmod 5 3 ∧
      (ImageCropper.getGridSegmentRegion 800 600 5).x = (Int.tmod 5 3 : ℚ) * (800 / 3) ∧
      (ImageCropper.getGridSegmentRegion 800 600 5).y = (Int.fdiv 5 3 : ℚ) * (600 / 3) :=
  getGridSegmentRegion_rowMajor 800 600 5 (by decide) (by decide)

/-- C6: for every width and height, getAllGridSegments returns an ordered
sequence of exactly 9 CropRegions whose i-th element equals
getGridSegmentRegion(width, height, i) for i = 0..8. -/
theorem getAllGridSegments_spec (W H : ℚ) :
    (ImageCropper.getAllGridSegments W H).length = 9 ∧
      ∀ i : ℕ, i < 9 →
        (ImageCropper.getAllGridSegments W H)[i]? =
          some (ImageCropper.getGridSegmentRegion W H (i : ℤ)) := by
  refine ⟨rfl, ?_⟩
  intro i hi
  interval_cases i <;> rfl

theorem getAllGridSegments_spec_witness :
    (ImageCropper.getAllGridSegments 800 600)[4]? =
      some (ImageCropper.getGridSegmentRegion 800 600 ((4 : ℕ) : ℤ)) :=
  (getAllGridSegments_spec 800 600).2 4 (by decide)

/-- C7: getGridSegmentRegion and getAllGridSegments are pure and
deterministic: any two calls with equal width, height and gridIndex return
equal regions, so a golden image and an aligned test image of the same
dimensions receive identical partitions. -/
theorem getGridSegmentRegion_deterministic (w h w2 h2 : ℚ) (i i2 : ℤ)
    (hw : w = w2) (hh : h = h2) (hi : i = i2) :
    ImageCropper.getGridSegmentRegion w h i =
        ImageCropper.getGridSegmentRegion w2 h2 i2 ∧
      ImageCropper.getAllGridSegments w h = ImageCropper.getAllGridSegments w2 h2 := by
  subst hw; subst hh; subst hi
  exact ⟨rfl, rfl⟩

theorem getGridSegmentRegion_deterministic_witness :
    ImageCropper.getGridSegmentRegion 800 600 0 =
        ImageCropper.getGridSegmentRegion 800 600 0 ∧
      ImageCropper.getAllGridSegments 800 600 = ImageCropper.getAllGridSegments 800 600 :=
  getGridSegmentRegion_deterministic 800 600 800 600 0 0 rfl rfl rfl

/-- C8: getGridSegmentRegion performs no input validation: for positive
image dimensions and any gridIndex ≥ 9 it still returns a region, and that
region violates the CropRegion bound y + height ≤ imageHeight. -/
theorem getGridSegmentRegion_no_validation (W H : ℚ) (i : ℤ)
    (hW : 0 < W) (hH : 0 < H) (hi : 9 ≤ i) :
    H < (ImageCropper.getGridSegmentRegion W H i).y +
      (ImageCropper.getGridSegmentRegion W H i).height := by
  have hf : Int.fdiv i 3 = i / 3 := Int.fdiv_eq_ediv i (by norm_num)
  have h3 : (3 : ℤ) ≤ Int.fdiv i 3 := by rw [hf]; omega
  have hne : Int.fdiv i 3 ≠ 3 - 1 := by rw [hf]; omega
  simp only [ImageCropper.getGridSegmentRegion]
  rw [if_neg hne]
  have hcast : (3 : ℚ) ≤ (Int.fdiv i 3 : ℚ) := by exact_mod_cast h3
  have hmul : (3 : ℚ) * (H / 3) ≤ (Int.fdiv i 3 : ℚ) * (H / 3) :=
    mul_le_mul_of_nonneg_right hcast (by positivity)
  linarith

theorem getGridSegmentRegion_no_validation_witness :
    (600 : ℚ) < (ImageCropper.getGridSegmentRegion 800 600 9).y +
      (ImageCropper.getGridSegmentRegion 800 600 9).height :=
  getGridSegmentRegion_no_validation 800 600 9 (by norm_num) (by norm_num) (by decide)

/-- C9: every successfully resolved call of cropAndStoreDefect carries a
region equal to getGridSegmentRegion(imageWidth, imageHeight, gridIndex) and
a gridIndex field equal to the gridIndex argument, unchanged. -/
theorem cropAndStoreDefect_region_faithful
    (cropOutput : String → CropRegion → String) (url : String)
    (gridIndex : ℤ) (W H : ℚ) :
    (ImageCropper.cropAndStoreDefect cropOutput url gridIndex W H).region =
        ImageCropper.getGridSegmentRegion W H gridIndex ∧
      (ImageCropper.cropAndStoreDefect cropOutput url gridIndex W H).gridIndex =
        gridIndex :=
  ⟨rfl, rfl⟩

/-- C1 (counterexample): the claim that a segment not in the last row/column
has width floor(imageWidth / 3) fails at imageWidth = 10, imageHeight = 9,
gridIndex = 0: the source computes the exact quotient 10 / 3, not its
floor 3. -/
theorem getGridSegmentRegion_floor_counterexample :
    (ImageCropper.getGridSegmentRegion 10 9 0).width ≠ ((⌊(10 : ℚ) / 3⌋ : ℤ) : ℚ) := by
  norm_num [ImageCropper.getGridSegmentRegion_zero]

/-- C1 (amended): for gridIndex in [0, 8], every segment not in the last
grid row/column has width equal to exactly imageWidth / 3 and height equal
to exactly imageHeight / 3 (exact division, with no flooring), while the
last column has width imageWidth - 2 * (imageWidth / 3) and the last row has
height imageHeight - 2 * (imageHeight / 3), absorbing what remains of the
image. -/
theorem getGridSegmentRegion_exact_thirds (W H : ℚ) (i : ℤ)
    (h0 : 0 ≤ i) (h8 : i ≤ 8) :
    (Int.tmod i 3 ≠ 2 → (ImageCropper.getGridSegmentRegion W H i).width = W / 3) ∧
      (Int.fdiv i 3 ≠ 2 → (ImageCropper.getGridSegmentRegion W H i).height = H / 3) ∧
      (Int.tmod i 3 = 2 →
        (ImageCropper.getGridSegmentRegion W H i).width = W - 2 * (W / 3)) ∧
      (Int.fdiv i 3 = 2 →
        (ImageCropper.getGridSegmentRegion W H i).height = H - 2 * (H / 3)) := by
  interval_cases i <;>
    refine ⟨fun h => ?_, fun h => ?_, fun h => ?_, fun h => ?_⟩ <;>
    first
      | rfl
      | exact absurd (by decide) h
      | exact absurd h (by decide)

theorem getGridSegmentRegion_exact_thirds_witness :
    (ImageCropper.getGridSegmentRegion 800 600 1).width = 800 / 3 :=
  (getGridSegmentRegion_exact_thirds 800 600 1 (by decide) (by decide)).1 (by decide)

/-- C5: for every AnalysisResult produced by the (spec-modelled) Aggregator,
anomaly_count equals the size of defect_locations and equals the count of
segments with anomaly_detected = true, and verdict is DEFECT if and only if
anomaly_count > 0. -/
theorem aggregate_invariant (segments : List SegmentResult) :
    (aggregate segments).anomaly_count = (aggregate segments).defect_locations.length ∧
      (aggregate segments).anomaly_count =
        (segments.filter fun s => s.anomaly_detected).length ∧
      ((aggregate segments).verdict = "DEFECT" ↔
        0 < (aggregate segments).anomaly_count) := by
  refine ⟨(List.length_map _ _).symm, rfl, ?_⟩
  by_cases h : 0 < (segments.filter fun s => s.anomaly_detected).length
  · constructor
    · intro _; exact h
    · intro _
      show (if 0 < (segments.filter fun s => s.anomaly_detected).length then "DEFECT"
        else "NORMAL") = "DEFECT"
      rw [if_pos h]
  · constructor
    · intro hv
      have hv2 : (if 0 < (segments.filter fun s => s.anomaly_detected).length
          then "DEFECT" else "NORMAL") = "DEFECT" := hv
      rw [if_neg h] at hv2
      exact absurd hv2 (by decide)
    · intro hc
      exact absurd hc h

/-- C10: InspectionCard always instantiates DefectViewer without the
imageWidth/imageHeight props, and DefectViewer then computes every crop
region from the default dimensions 800 × 600, so the segment crops shown to
the inspector come from a fixed 800 × 600 grid regardless of the actual
image dimensions. -/
theorem defectViewer_default_dimensions
    (cropOutput : String → CropRegion → String)
    (imagePath goldenImagePath : String) (a : AnalysisResult) (gridIndex : ℤ) :
    (InspectionCard.defectViewerProps imagePath goldenImagePath a).imageWidth = none ∧
      (InspectionCard.defectViewerProps imagePath goldenImagePath a).imageHeight = none ∧
      (DefectViewer.loadCroppedImages cropOutput
          (InspectionCard.defectViewerProps imagePath goldenImagePath a)
          gridIndex).1.region =
        ImageCropper.getGridSegmentRegion 800 600 gridIndex ∧
      (DefectViewer.loadCroppedImages cropOutput
          (InspectionCard.defectViewerProps imagePath goldenImagePath a)
          gridIndex).2.region =
        ImageCropper.getGridSegmentRegion 800 600 gridIndex :=
  ⟨rfl, rfl, rfl, rfl⟩

/-- C2: for every width and height, the 9 CropRegions returned by
getAllGridSegments exactly tile the width × height rectangle: their union is
the full half-open rectangle [0, W) × [0, H), the regions of distinct grid
indices are pairwise disjoint, and the list is in row-major index order
(its entries are the regions of grid indices 0..8 in order). -/
theorem gridSegments_tile (W H : ℚ) :
    (∀ p : ℚ × ℚ,
      (∃ r ∈ ImageCropper.getAllGridSegments W H, r.contains p) ↔
        0 ≤ p.1 ∧ p.1 < W ∧ 0 ≤ p.2 ∧ p.2 < H) ∧
      (∀ i j : ℤ, 0 ≤ i → i < 9 → 0 ≤ j → j < 9 → i ≠ j → ∀ p : ℚ × ℚ,
        ¬((ImageCropper.getGridSegmentRegion W H i).contains p ∧
          (ImageCropper.getGridSegmentRegion W H j).contains p)) ∧
      ImageCropper.getAllGridSegments W H =
        [ImageCropper.getGridSegmentRegion W H 0, ImageCropper.getGridSegmentRegion W H 1,
         ImageCropper.getGridSegmentRegion W H 2, ImageCropper.getGridSegmentRegion W H 3,
         ImageCropper.getGridSegmentRegion W H 4, ImageCropper.getGridSegmentRegion W H 5,
         ImageCropper.getGridSegmentRegion W H 6, ImageCropper.getGridSegmentRegion W H 7,
         ImageCropper.getGridSegmentRegion W H 8] := by
  refine ⟨?_, ?_, ImageCropper.getAllGridSegments_eq W H⟩
  · intro p
    constructor
    · rintro ⟨r, hr, hc⟩
      rw [ImageCropper.getAllGridSegments_eq] at hr
      simp only [List.mem_cons, List.not_mem_nil, or_false] at hr
      rcases hr with rfl | rfl | rfl | rfl | rfl | rfl | rfl | rfl | rfl <;>
        simp only [ImageCropper.contains_zero_iff, ImageCropper.contains_one_iff,
          ImageCropper.contains_two_iff, ImageCropper.contains_three_iff,
          ImageCropper.contains_four_iff, ImageCropper.contains_five_iff,
          ImageCropper.contains_six_iff, ImageCropper.contains_seven_iff,
          ImageCropper.contains_eight_iff] at hc <;>
        obtain ⟨h1, h2, h3, h4⟩ := hc <;>
        exact ⟨by linarith, by linarith, by linarith, by linarith⟩
    · rintro ⟨hx0, hxW, hy0, hyH⟩
      rw [ImageCropper.getAllGridSegments_eq]
      rcases lt_or_le p.1 (W / 3) with hcA | hcA
      · rcases lt_or_le p.2 (H / 3) with hrA | hrA
        · exact ⟨ImageCropper.getGridSegmentRegion W H 0, by simp,
            (ImageCropper.contains_zero_iff W H p).mpr
              ⟨by linarith, by linarith, by linarith, by linarith⟩⟩
        · rcases lt_or_le p.2 (2 * (H / 3)) with hrB | hrB
          · exact ⟨ImageCropper.getGridSegmentRegion W H 3, by simp,
              (ImageCropper.contains_three_iff W H p).mpr
                ⟨by linarith, by linarith, by linarith, by linarith⟩⟩
          · exact ⟨ImageCropper.getGridSegmentRegion W H 6, by simp,
              (ImageCropper.contains_six_iff W H p).mpr
                ⟨by linarith, by linarith, by linarith, by linarith⟩⟩
      · rcases lt_or_le p.1 (2 * (W / 3)) with hcB | hcB
        · rcases lt_or_le p.2 (H / 3) with hrA | hrA
          · exact ⟨ImageCropper.getGridSegmentRegion W H 1, by simp,
              (ImageCropper.contains_one_iff W H p).mpr
                ⟨by linarith, by linarith, by linarith, by linarith⟩⟩
          · rcases lt_or_le p.2 (2 * (H / 3)) with hrB | hrB
            · exact ⟨ImageCropper.getGridSegmentRegion W H 4, by simp,
                (ImageCropper.contains_four_iff W H p).mpr
                  ⟨by linarith, by linarith, by linarith, by linarith⟩⟩
            · exact ⟨ImageCropper.getGridSegmentRegion W H 7, by simp,
                (ImageCropper.contains_seven_iff W H p).mpr
                  ⟨by linarith, by linarith, by linarith, by linarith⟩⟩
        · rcases lt_or_le p.2 (H / 3) with hrA | hrA
          · exact ⟨ImageCropper.getGridSegmentRegion W H 2, by simp,
              (ImageCropper.contains_two_iff W H p).mpr
                ⟨by linarith, by linarith, by linarith, by linarith⟩⟩
          · rcases lt_or_le p.2 (2 * (H / 3)) with hrB | hrB
            · exact ⟨ImageCropper.getGridSegmentRegion W H 5, by simp,
                (ImageCropper.contains_five_iff W H p).mpr
                  ⟨by linarith, by linarith, by linarith, by linarith⟩⟩
            · exact ⟨ImageCropper.getGridSegmentRegion W H 8, by simp,
                (ImageCropper.contains_eight_iff W H p).mpr
                  ⟨by linarith, by linarith, by linarith, by linarith⟩⟩
  · intro i j hi0 hi9 hj0 hj9 hij p
    interval_cases i <;> interval_cases j <;>
      first
        | exact absurd rfl hij
        | (rintro ⟨hA, hB⟩
           simp only [ImageCropper.contains_zero_iff, ImageCropper.contains_one_iff,
             ImageCropper.contains_two_iff, ImageCropper.contains_three_iff,
             ImageCropper.contains_four_iff, ImageCropper.contains_five_iff,
             ImageCropper.contains_six_iff, ImageCropper.contains_seven_iff,
             ImageCropper.contains_eight_iff] at hA hB
           obtain ⟨a1, a2, a3, a4⟩ := hA
           obtain ⟨b1, b2, b3, b4⟩ := hB
           linarith)

theorem gridSegments_tile_witness :
    ¬((ImageCropper.getGridSegmentRegion 9 6 0).contains (1, 1) ∧
      (ImageCropper.getGridSegmentRegion 9 6 1).contains (1, 1)) :=
  (gridSegments_tile 9 6).2.1 0 1 (by decide) (by decide) (by decide) (by decide)
    (by decide) (1, 1)
